import Mathlib

/-!
Shallow embedding of `src/space.py` (2D rigid-point kinematics).

Python floats are modelled as real numbers `ℝ`; the math functions
`cos`, `sin`, `sqrt`, `atan` of the `math` module become `Real.cos`,
`Real.sin`, `Real.sqrt`, `Real.arctan`.  Fallible Python code (raising
`TypeError` or `ZeroDivisionError`) is modelled with `Except PyError`.
Mutating methods are modelled by explicit state passing: a method that
mutates `self` and returns `r` becomes a function returning the pair
`(r, updated state)`.
-/

/-- Errors the Python runtime raises in the embedded fragment:
`typeError` for instantiating a class with unimplemented abstract
methods, `zeroDivisionError` for float division by zero. -/
inductive PyError where
  | typeError : PyError
  | zeroDivisionError : PyError
deriving DecidableEq

/-- `class Angle`: wraps a single scalar `__value`.  The source stores
the value in DEGREES: with `to_deg=True` the (radian) input is converted
by `value * 180 / pi`, and the `degrees` property returns the stored
value unchanged. -/
structure Angle where
  value : ℝ

/-- `Angle.__init__(value, to_deg)`: `self.__value = value if not to_deg
else value * 180 / pi`. -/
noncomputable def Angle.init (value : ℝ) (to_deg : Bool) : Angle :=
  ⟨if to_deg then value * 180 / Real.pi else value⟩

/-- property `degrees`: returns the stored value. -/
def Angle.degrees (a : Angle) : ℝ := a.value

/-- property `radians`: `self.__value * pi / 180`. -/
noncomputable def Angle.radians (a : Angle) : ℝ := a.value * Real.pi / 180

/-- `Angle.__sub__`: difference of the stored values. -/
def Angle.sub (a b : Angle) : Angle := ⟨a.value - b.value⟩

/-- `Angle.__add__`: sum of the stored values. -/
def Angle.addA (a b : Angle) : Angle := ⟨a.value + b.value⟩

/-- `class VectorizeParameter` (spec name: PolarVector): magnitude
`__value`, an `Angle`, and a display name defaulting to `"val"`. -/
structure VectorizeParameter where
  value : ℝ
  angle : Angle
  name : String

/-- property `x_vector`: `self.__value * cos(self.__angle.radians)`. -/
noncomputable def VectorizeParameter.x_vector (v : VectorizeParameter) : ℝ :=
  v.value * Real.cos v.angle.radians

/-- property `y_vector`: `self.__value * sin(self.__angle.radians)`. -/
noncomputable def VectorizeParameter.y_vector (v : VectorizeParameter) : ℝ :=
  v.value * Real.sin v.angle.radians

/-- The summed Cartesian x-projections `fx = a*cos(alpha.radians) +
b*cos(betta.radians)` computed inside `VectorizeParameter.__add__`. -/
noncomputable def fxSum (s o : VectorizeParameter) : ℝ :=
  s.value * Real.cos s.angle.radians + o.value * Real.cos o.angle.radians

/-- The summed Cartesian y-projections `fy = a*sin(alpha.radians) +
b*sin(betta.radians)` computed inside `VectorizeParameter.__add__`. -/
noncomputable def fySum (s o : VectorizeParameter) : ℝ :=
  s.value * Real.sin s.angle.radians + o.value * Real.sin o.angle.radians

open Classical in
/-- `VectorizeParameter.__add__`: law-of-cosines magnitude
`c = sqrt(a**2 + b**2 + 2*a*b*cos((alpha - betta).radians))`, then
`angle = Angle(atan(fy / fx), to_deg=True)`.  In Python `fy / fx`
raises `ZeroDivisionError` when `fx == 0`; the result keeps the default
name `"val"`. -/
noncomputable def VectorizeParameter.add (s o : VectorizeParameter) :
    Except PyError VectorizeParameter :=
  let a := s.value
  let b := o.value
  let c := Real.sqrt (a ^ 2 + b ^ 2 + 2 * a * b * Real.cos ((s.angle.sub o.angle).radians))
  if fxSum s o = 0 then Except.error PyError.zeroDivisionError
  else Except.ok ⟨c, Angle.init (Real.arctan (fySum s o / fxSum s o)) true, "val"⟩

/-- `VectorizeParameter.__mul__`: `VectorizeParameter(self.__value *
other, self.__angle)` — note the name argument is NOT forwarded, so the
result gets the default name `"val"`. -/
noncomputable def VectorizeParameter.mul (v : VectorizeParameter) (k : ℝ) :
    VectorizeParameter :=
  ⟨v.value * k, v.angle, "val"⟩

open Classical in
/-- `VectorizeParameter.__truediv__`: `VectorizeParameter(self.__value /
other, self.__angle)`; Python float division raises `ZeroDivisionError`
on a zero divisor; the name is likewise reset to `"val"`. -/
noncomputable def VectorizeParameter.truediv (v : VectorizeParameter) (k : ℝ) :
    Except PyError VectorizeParameter :=
  if k = 0 then Except.error PyError.zeroDivisionError
  else Except.ok ⟨v.value / k, v.angle, "val"⟩

/-- The zero vector `VectorizeParameter(0, Angle(0))` used as default in
`Speed.__init__` (with the default name `"val"`). -/
def zeroVector : VectorizeParameter := ⟨0, ⟨0⟩, "val"⟩

/-- `class Speed` (spec name: Velocity): a linear and a rotational
`VectorizeParameter`. -/
structure Speed where
  linear : VectorizeParameter
  rotational : VectorizeParameter

/-- `Speed.__init__`: each component defaults to
`VectorizeParameter(0, Angle(0))` when not supplied (`None`). -/
def Speed.init (linear rotational : Option VectorizeParameter) : Speed :=
  ⟨linear.getD zeroVector, rotational.getD zeroVector⟩

/-- The default `Speed` with both components zero. -/
def Speed.zero : Speed := Speed.init none none

/-- The abstract methods of `class CollisionShape(ABC)`:
`top_verticals` and `bottom_verticals`, both marked `@abstractmethod`. -/
def collisionShapeAbstractMethods : List String :=
  ["top_verticals", "bottom_verticals"]

/-- Modelled Python ABC semantics: calling `CollisionShape()` raises
`TypeError` exactly when the class still has unimplemented abstract
methods (here it has two), otherwise an instance is produced. -/
def instantiateCollisionShape : Except PyError Unit :=
  if collisionShapeAbstractMethods.isEmpty then Except.ok ()
  else Except.error PyError.typeError

/-- `class SpaceData` (spec name: PoseState): extent, position and
orientation.  Python declares the tuples as `Tuple[int, int]` but the
update path assigns float sums, so all numeric fields are modelled
as `ℝ`. -/
structure SpaceData where
  width : ℝ
  height : ℝ
  x : ℝ
  y : ℝ
  angle : Angle

/-- `SpaceData.__init__(size, coords, angles)`: unpacks the three field
groups and then executes `self.__shape = CollisionShape()`, which raises
`TypeError` (abstract class), so `__init__` never returns normally and
no instance is produced. -/
def SpaceData.init (size : ℝ × ℝ) (coords : ℝ × ℝ) (angles : Angle) :
    Except PyError SpaceData :=
  match instantiateCollisionShape with
  | Except.error e => Except.error e
  | Except.ok _ => Except.ok ⟨size.1, size.2, coords.1, coords.2, angles⟩

/-- `SpaceData.update_coords(speed, _time)`:
`self.__x += speed.x_vector * _time; self.__y += speed.y_vector * _time;
return self.__x, self.__y`.  Returns the new coordinate pair together
with the updated state. -/
noncomputable def SpaceData.update_coords (sd : SpaceData)
    (speed : VectorizeParameter) (t : ℝ) : (ℝ × ℝ) × SpaceData :=
  let x := sd.x + speed.x_vector * t
  let y := sd.y + speed.y_vector * t
  ((x, y), { sd with x := x, y := y })

/-- `class ForceData` (spec name: KineticState): mass and a `Speed`. -/
structure ForceData where
  mass : ℝ
  speed : Speed

/-- `ForceData.__init__(mass, speed)`: stores both arguments with no
validation of any kind (in particular no mass check), so construction
always succeeds. -/
def ForceData.init (mass : ℝ) (speed : Speed) : Except PyError ForceData :=
  Except.ok ⟨mass, speed⟩

/-- `ForceData.update_speed(forces, _time)`:

    if forces:
        map((avg_force := forces[0]).__add__, forces[1:])
        self.speed.linear += avg_force * _time / self.mass
    return self.speed.linear

The `map(...)` call only binds `avg_force := forces[0]` and builds a
lazy iterator that is never consumed, so `forces[1:]` contribute
nothing; the linear speed is then updated by the polar `__add__` with
`forces[0] * _time / self.mass` alone.  Division by a zero mass and the
`fx == 0` case of `__add__` raise `ZeroDivisionError`. -/
noncomputable def ForceData.update_speed (fd : ForceData)
    (forces : List VectorizeParameter) (t : ℝ) :
    Except PyError (VectorizeParameter × ForceData) :=
  match forces with
  | [] => Except.ok (fd.speed.linear, fd)
  | f0 :: _rest =>
    match (f0.mul t).truediv fd.mass with
    | Except.error e => Except.error e
    | Except.ok acc =>
      match fd.speed.linear.add acc with
      | Except.error e => Except.error e
      | Except.ok v => Except.ok (v, { fd with speed := { fd.speed with linear := v } })

/-- `class Object(CollideObject)` (spec name: Body): owns a `SpaceData`
(held by `CollideObject.__init__`) and a `ForceData`. -/
structure Object where
  space_data : SpaceData
  force_data : ForceData

/-- The full construction pipeline `Object(SpaceData(...), ForceData(...))`
as the driver performs it: first construct the `SpaceData`, then the
`ForceData`, then wrap them. -/
def Object.initFromParts (size coords : ℝ × ℝ) (angles : Angle)
    (mass : ℝ) (speed : Speed) : Except PyError Object :=
  match SpaceData.init size coords angles with
  | Except.error e => Except.error e
  | Except.ok sd =>
    match ForceData.init mass speed with
    | Except.error e => Except.error e
    | Except.ok fd => Except.ok ⟨sd, fd⟩

/-- `Object.interact(*args, _time)`:
`speed = self.__force_data.update_speed(args, _time=_time);
coords = self._space_data.update_coords(speed, _time); return coords`.
Returns the new coordinates together with the updated object state. -/
noncomputable def Object.interact (o : Object)
    (args : List VectorizeParameter) (t : ℝ) :
    Except PyError ((ℝ × ℝ) × Object) :=
  match o.force_data.update_speed args t with
  | Except.error e => Except.error e
  | Except.ok (speed, fd) =>
    let r := o.space_data.update_coords speed t
    Except.ok (r.1, ⟨r.2, fd⟩)

/-- A concrete unit vector at angle 0°, used to instantiate theorems
with hypotheses at a concrete input. -/
def unitE : VectorizeParameter := ⟨1, ⟨0⟩, "val"⟩

/-- A concrete unit vector at angle 180°, antiparallel to `unitE`. -/
def westE : VectorizeParameter := ⟨1, ⟨180⟩, "val"⟩

lemma angle_zero_radians : (⟨0⟩ : Angle).radians = 0 := by
  simp [Angle.radians]

lemma angle_pi_radians : (⟨180⟩ : Angle).radians = Real.pi := by
  simp only [Angle.radians]
  ring

/-- C9: an Angle constructed from degrees `d` (degree-denominated
construction, `to_deg = false`) reports `degrees = d` and
`radians = d * π / 180`, and converting the radian view back by
`* 180 / π` recovers the degree view exactly. -/
theorem angle_degree_radian_roundtrip (d : ℝ) :
    (Angle.init d false).degrees = d ∧
    (Angle.init d false).radians = d * Real.pi / 180 ∧
    (Angle.init d false).radians * 180 / Real.pi = (Angle.init d false).degrees := by
  refine ⟨rfl, rfl, ?_⟩
  show d * Real.pi / 180 * 180 / Real.pi = d
  have hpi := Real.pi_ne_zero
  field_simp

/-- C7: `update_speed` with an empty forces list returns the current
linear velocity and leaves the whole kinetic state — both the linear and
the rotational velocity component — unchanged. -/
theorem update_speed_empty_noop (fd : ForceData) (t : ℝ) :
    fd.update_speed [] t = Except.ok (fd.speed.linear, fd) := rfl

/-- C8: `update_coords` performs the Euler step
`x += v.x_vector * t; y += v.y_vector * t`, returns the new `(x, y)`
pair, and leaves `width`, `height` and `angle` unchanged. -/
theorem update_coords_euler_step (sd : SpaceData) (v : VectorizeParameter) (t : ℝ) :
    sd.update_coords v t =
      ((sd.x + v.x_vector * t, sd.y + v.y_vector * t),
        { sd with x := sd.x + v.x_vector * t, y := sd.y + v.y_vector * t }) ∧
    ((sd.update_coords v t).2.width = sd.width ∧
      (sd.update_coords v t).2.height = sd.height ∧
      (sd.update_coords v t).2.angle = sd.angle) :=
  ⟨rfl, rfl, rfl, rfl⟩

/-- C2: every call of the `SpaceData` constructor raises `TypeError`
(because `__init__` instantiates the abstract class `CollisionShape`),
for all argument values; consequently the full
`Object(SpaceData(...), ForceData(...))` construction pipeline also
fails for all argument values, so no constructed instance on which
`update_coords` could run is ever produced. -/
theorem spaceData_construction_always_fails :
    (∀ (size coords : ℝ × ℝ) (angles : Angle),
        SpaceData.init size coords angles = Except.error PyError.typeError) ∧
    (∀ (size coords : ℝ × ℝ) (angles : Angle) (mass : ℝ) (speed : Speed),
        Object.initFromParts size coords angles mass speed =
          Except.error PyError.typeError) :=
  ⟨fun _ _ _ => rfl, fun _ _ _ _ _ => rfl⟩

/-- C10: `Object.interact` is deterministic — two runs from equal
pre-states with equal forces and equal timestep produce equal results
(the returned coordinates and the post-state agree). -/
theorem interact_deterministic (o1 o2 : Object)
    (forces1 forces2 : List VectorizeParameter) (t1 t2 : ℝ)
    (ho : o1 = o2) (hf : forces1 = forces2) (ht : t1 = t2) :
    o1.interact forces1 t1 = o2.interact forces2 t2 := by
  rw [ho, hf, ht]

/-- Witness for C10 at a concrete object, force list and timestep. -/
theorem interact_deterministic_witness :
    Object.interact ⟨⟨50, 50, 0, 0, ⟨0⟩⟩, ⟨5, Speed.zero⟩⟩ [] 1 =
      Object.interact ⟨⟨50, 50, 0, 0, ⟨0⟩⟩, ⟨5, Speed.zero⟩⟩ [] 1 :=
  interact_deterministic _ _ _ _ _ _ rfl rfl rfl

/-- C1: the code does NOT fold the whole forces list: the lazy
`map(...)` is never consumed, so `update_speed` on `f0 :: rest`
coincides with `update_speed` on `[f0]` — the tail forces contribute
nothing, for any state, tail and timestep. -/
theorem update_speed_ignores_tail_forces (fd : ForceData)
    (f0 : VectorizeParameter) (rest : List VectorizeParameter) (t : ℝ) :
    fd.update_speed (f0 :: rest) t = fd.update_speed [f0] t := rfl

/-- Counterexample to C3: constructing `ForceData` with mass `0`
succeeds (returns an instance with mass `0`) instead of failing
eagerly with an `InvalidMass` error. -/
theorem forceData_init_zero_mass_succeeds :
    ForceData.init 0 Speed.zero = Except.ok ⟨0, Speed.zero⟩ := rfl

/-- C3 amended: `ForceData.__init__` performs no mass validation, so
construction with any non-positive mass succeeds and stores the mass
unchanged; any failure is deferred to first use (division by mass in
`update_speed`). -/
theorem forceData_init_no_mass_validation (m : ℝ) (s : Speed) (hm : m ≤ 0) :
    ForceData.init m s = Except.ok ⟨m, s⟩ := rfl

/-- Witness for the amended C3 at mass `0`. -/
theorem forceData_init_no_mass_validation_witness :
    (0 : ℝ) ≤ 0 ∧ ForceData.init 0 Speed.zero = Except.ok ⟨0, Speed.zero⟩ :=
  ⟨le_refl 0, forceData_init_no_mass_validation 0 Speed.zero (le_refl 0)⟩

/-- C4: when the summed x-projection is nonzero, polar addition returns
the vector whose magnitude is the law-of-cosines value
`sqrt(a² + b² + 2ab·cos(A − B))` (angle difference taken in radians) and
whose angle is `atan(fy/fx)` wrapped by a degrees-flagged `Angle`
construction. -/
theorem polar_add_law_of_cosines (s o : VectorizeParameter)
    (h : fxSum s o ≠ 0) :
    s.add o = Except.ok
      ⟨Real.sqrt (s.value ^ 2 + o.value ^ 2 +
          2 * s.value * o.value * Real.cos (s.angle.radians - o.angle.radians)),
        Angle.init (Real.arctan (fySum s o / fxSum s o)) true, "val"⟩ := by
  have hrad : (s.angle.sub o.angle).radians = s.angle.radians - o.angle.radians := by
    simp only [Angle.sub, Angle.radians]
    ring
  simp only [VectorizeParameter.add, if_neg h, hrad]

/-- Witness for C4: adding the unit vector at 0° to itself. -/
theorem polar_add_law_of_cosines_witness :
    fxSum unitE unitE ≠ 0 ∧
    unitE.add unitE = Except.ok
      ⟨Real.sqrt (unitE.value ^ 2 + unitE.value ^ 2 +
          2 * unitE.value * unitE.value *
            Real.cos (unitE.angle.radians - unitE.angle.radians)),
        Angle.init (Real.arctan (fySum unitE unitE / fxSum unitE unitE)) true,
        "val"⟩ := by
  have h : fxSum unitE unitE ≠ 0 := by
    norm_num [fxSum, unitE, angle_zero_radians]
  exact ⟨h, polar_add_law_of_cosines unitE unitE h⟩

/-- C5: polar addition fails — with the explicit `ZeroDivisionError`
raised synchronously by the `fy / fx` step (never a silently returned
infinity or NaN) — exactly when the summed x-projection is zero; when it
is nonzero the addition succeeds with some resulting vector. -/
theorem polar_add_zero_fx_error (s o : VectorizeParameter) :
    (fxSum s o = 0 → s.add o = Except.error PyError.zeroDivisionError) ∧
    (fxSum s o ≠ 0 → ∃ w, s.add o = Except.ok w) := by
  constructor
  · intro h
    simp only [VectorizeParameter.add, if_pos h]
  · intro h
    exact ⟨⟨Real.sqrt (s.value ^ 2 + o.value ^ 2 +
        2 * s.value * o.value * Real.cos ((s.angle.sub o.angle).radians)),
      Angle.init (Real.arctan (fySum s o / fxSum s o)) true, "val"⟩,
      by simp only [VectorizeParameter.add, if_neg h]⟩

/-- Witness for C5: adding antiparallel unit vectors (0° and 180°) has
`fx = 0` and errors; the parallel pair from the C4 witness has
`fx ≠ 0` and succeeds. -/
theorem polar_add_zero_fx_error_witness :
    fxSum unitE westE = 0 ∧
    unitE.add westE = Except.error PyError.zeroDivisionError := by
  have h : fxSum unitE westE = 0 := by
    simp [fxSum, unitE, westE, angle_zero_radians, angle_pi_radians,
      Real.cos_pi]
  exact ⟨h, (polar_add_zero_fx_error unitE westE).1 h⟩

/-- Counterexample to C6: scaling does NOT preserve the name — the
result of `__mul__` carries the default name `"val"`, not the operand's
name `"force"`. -/
theorem scale_drops_name_counterexample :
    (VectorizeParameter.mul ⟨2, ⟨0⟩, "force"⟩ 3).name = "val" ∧
      (VectorizeParameter.mul ⟨2, ⟨0⟩, "force"⟩ 3).name ≠ "force" :=
  ⟨rfl, by decide⟩

/-- C6 amended: `v * k` has magnitude `v.value * k` and the same angle,
and `v / k` (for `k ≠ 0`) has magnitude `v.value / k` and the same
angle, but both reset the name to the default `"val"` instead of
keeping `v`'s name; dividing after scaling by the same `k ≠ 0` restores
the magnitude and angle (a full inverse only for vectors already named
`"val"`), and `v * 1` preserves magnitude and angle while also
resetting the name. -/
theorem scale_divide_reset_name (v : VectorizeParameter) (k : ℝ)
    (hk : k ≠ 0) :
    v.mul k = ⟨v.value * k, v.angle, "val"⟩ ∧
    v.truediv k = Except.ok ⟨v.value / k, v.angle, "val"⟩ ∧
    (v.mul k).truediv k = Except.ok ⟨v.value, v.angle, "val"⟩ ∧
    v.mul 1 = ⟨v.value * 1, v.angle, "val"⟩ ∧ v.value * 1 = v.value := by
  refine ⟨rfl, ?_, ?_, rfl, mul_one v.value⟩
  · simp only [VectorizeParameter.truediv, if_neg hk]
  · simp only [VectorizeParameter.mul, VectorizeParameter.truediv, if_neg hk,
      mul_div_cancel_right₀ v.value hk]

/-- Witness for the amended C6 at `v = unitE`, `k = 2`. -/
theorem scale_divide_reset_name_witness :
    (2 : ℝ) ≠ 0 ∧
    (unitE.mul 2 = ⟨unitE.value * 2, unitE.angle, "val"⟩ ∧
      unitE.truediv 2 = Except.ok ⟨unitE.value / 2, unitE.angle, "val"⟩ ∧
      (unitE.mul 2).truediv 2 = Except.ok ⟨unitE.value, unitE.angle, "val"⟩ ∧
      unitE.mul 1 = ⟨unitE.value * 1, unitE.angle, "val"⟩ ∧
      unitE.value * 1 = unitE.value) :=
  ⟨by norm_num, scale_divide_reset_name unitE 2 (by norm_num)⟩
